import Mathlib

/-!
# Verification of the weewx-purpleair polling/normalization core

A shallow embedding of `bin/user/purpleair.py` (version 0.8): the record
normalizer `collect_data`, the archive gate `PurpleAirMonitor.new_archive_record`,
and one iteration of the poll loop `PurpleAirMonitorDataThread.run`.

Python floats are modelled as rationals, decoded JSON objects as association
lists from strings to rationals, and a `KeyError` as `Except.error` carrying
the missing key.
-/

set_option maxRecDepth 2048

namespace PurpleAir

/-- A value stored in the record dictionary: a number, or Python `None`
(which `get_and_update_missed` returns for a missing payload key). -/
inductive Val where
  | num : ℚ → Val
  | none : Val
deriving DecidableEq

/-- A decoded JSON payload: a finite string-keyed map of numeric fields.
For website data this is the object under the `"sensor"` key. -/
abbrev Payload := List (String × ℚ)

/-- The record dictionary built by `collect_data` (insertion order kept;
every key is assigned at most once, so `List.lookup` is the dict lookup). -/
abbrev Rec := List (String × Val)

deriving instance DecidableEq for Except

/-- Wrap an optional payload value the way the record assignments
`record[...] = get_and_update_missed(...)` do: a miss stores `None`. -/
def valOf : Option ℚ → Val
  | some v => Val.num v
  | Option.none => Val.none

/-- Modelled from the spec: the host's US unit-system tag `weewx.US`
(the external weewx collaborator defines it as the integer 1). -/
def US : ℚ := 1

/-- Modelled from the spec: the external unit-conversion collaborator
`weewx.units.convertStd((p, 'mbar', 'group_pressure'), weewx.US)`,
which converts a millibar pressure to inches of mercury. -/
def convertStd_mbar_US (p : ℚ) : ℚ := p * (295299875 / 10000000000)

/-- The key holding the payload's own timestamp: `last_seen` for website
data, `response_date` for a local device (lines 188 and 191). -/
def ts_key (is_data_from_purpleair_website : Bool) : String :=
  if is_data_from_purpleair_website then "last_seen" else "response_date"

/-- The six concentration record keys iterated at line 233. -/
def conc_keys : List String :=
  ["pm1_0_cf_1", "pm1_0_atm", "pm2_5_cf_1", "pm2_5_atm", "pm10_0_cf_1", "pm10_0_atm"]

/-- The `remap_dot` table (lines 230-231) sending record keys to the
dotted field names of the purpleair website JSON. -/
def remap_dot : String → String
  | "pm1_0_cf_1" => "pm1.0_cf_1"
  | "pm1_0_atm" => "pm1.0_atm"
  | "pm2_5_cf_1" => "pm2.5_cf_1"
  | "pm2_5_atm" => "pm2.5_atm"
  | "pm10_0_cf_1" => "pm10.0_cf_1"
  | "pm10_0_atm" => "pm10.0_atm"
  | k => k

/-- The payload keys of the A and B channels for one record key
(lines 234-239): dotted plus `_a`/`_b` suffix for website data,
the key itself plus a `_b`-suffixed twin for a local device. -/
def channel_keys (is_data_from_purpleair_website : Bool) (key : String) : String × String :=
  if is_data_from_purpleair_website then (remap_dot key ++ "_a", remap_dot key ++ "_b")
  else (key, key ++ "_b")

/-- Channel reconciliation (lines 240-245): the non-zero channel when
exactly one channel reads zero, the arithmetic mean otherwise. -/
def reconcile (valA valB : ℚ) : ℚ :=
  if valA = 0 ∧ valB ≠ 0 then valB
  else if valB = 0 ∧ valA ≠ 0 then valA
  else (valA + valB) / 2

/-- `get_and_update_missed` (lines 200-205): look a key up in the payload;
a miss appends the key to the `missed` list and yields `None`. -/
def get_and_update_missed (j : Payload) (key : String) (missed : List String) :
    Option ℚ × List String :=
  match j.lookup key with
  | some v => (some v, missed)
  | Option.none => (Option.none, missed ++ [key])

/-- The temperature/humidity/dewpoint record entries and the missed keys
they accumulate (lines 207-213), in source order. -/
def env_fields (is_data_from_purpleair_website : Bool) (j : Payload) :
    List (String × Val) × List String :=
  if is_data_from_purpleair_website then
    let (t, m1) := get_and_update_missed j "temperature" []
    let (h, m2) := get_and_update_missed j "humidity" m1
    ([("purple_temperature", valOf t), ("purple_humidity", valOf h)], m2)
  else
    let (t, m1) := get_and_update_missed j "current_temp_f" []
    let (h, m2) := get_and_update_missed j "current_humidity" m1
    let (d, m3) := get_and_update_missed j "current_dewpoint_f" m2
    ([("purple_temperature", valOf t), ("purple_humidity", valOf h),
      ("purple_dewpoint", valOf d)], m3)

/-- The pressure record entry (lines 215-220): present pressure is
converted from millibar and stored; absent pressure stores nothing but
joins the missed list. -/
def pressure_field (j : Payload) (missed : List String) :
    List (String × Val) × List String :=
  match get_and_update_missed j "pressure" missed with
  | (some p, m) => ([("purple_pressure", Val.num (convertStd_mbar_US p))], m)
  | (Option.none, m) => ([], m)

/-- The concentration entries (lines 233-245): for each record key read
channel A then channel B — a missing channel key is a `KeyError` — and
store the reconciled value. -/
def conc_entries (is_data_from_purpleair_website : Bool) (j : Payload) :
    List String → Except String Rec
  | [] => .ok []
  | key :: rest =>
    let ks := channel_keys is_data_from_purpleair_website key
    match j.lookup ks.1 with
    | Option.none => .error ks.1
    | some valA =>
      match j.lookup ks.2 with
      | Option.none => .error ks.2
      | some valB =>
        match conc_entries is_data_from_purpleair_website j rest with
        | .error e => .error e
        | .ok tail => .ok ((key, Val.num (reconcile valA valB)) :: tail)

/-- The one aggregated info line of lines 222-223, emitted only when some
optional field was missing. -/
def missed_logs (missed : List String) : List String :=
  if missed = [] then []
  else ["sensor didn't report field(s): " ++ String.intercalate "," missed]

/-- The record built by lines 193-220 (before the staleness gate) and
the accumulated missed keys: the fixed `dateTime`/`usUnits` head, the
environmental entries, then the pressure entry. -/
def base_record (is_data_from_purpleair_website : Bool) (j : Payload)
    (fetchTime : ℤ) : Rec × List String :=
  let (envs, m1) := env_fields is_data_from_purpleair_website j
  let (prs, m2) := pressure_field j m1
  ([("dateTime", Val.num (fetchTime : ℚ)), ("usUnits", Val.num US)] ++ envs ++ prs, m2)

/-- Shallow embedding of `collect_data` (lines 155-246) after the HTTP
fetch and JSON decoding: `j` is the decoded object (for website data,
already the object under `"sensor"`), `now` the `datetime.utcnow()`
reading in epoch seconds, `fetchTime` the earlier `int(time.time())`
reading. Returns the record together with the info-log lines emitted, or
the key of a `KeyError`. `valid_timeout` is 10 minutes = 600 seconds. -/
def collect_data (is_data_from_purpleair_website : Bool) (j : Payload)
    (now : ℚ) (fetchTime : ℤ) : Except String (Rec × List String) :=
  match j.lookup (ts_key is_data_from_purpleair_website) with
  | Option.none => .error (ts_key is_data_from_purpleair_website)
  | some last_seen =>
    let (record, missed) := base_record is_data_from_purpleair_website j fetchTime
    if now - last_seen < 600 then
      match conc_entries is_data_from_purpleair_website j conc_keys with
      | .error k => .error k
      | .ok centries => .ok (record ++ centries, missed_logs missed)
    else
      .ok (record, missed_logs missed)

/-- The optional payload fields tracked through `missed`, in the order
`collect_data` probes them (mode-specific environmental fields, then
pressure). -/
def optional_keys (is_data_from_purpleair_website : Bool) : List String :=
  if is_data_from_purpleair_website then ["temperature", "humidity", "pressure"]
  else ["current_temp_f", "current_humidity", "current_dewpoint_f", "pressure"]

/-- The record key an optional payload field is stored under. -/
def record_key : String → String
  | "temperature" => "purple_temperature"
  | "current_temp_f" => "purple_temperature"
  | "humidity" => "purple_humidity"
  | "current_humidity" => "purple_humidity"
  | "current_dewpoint_f" => "purple_dewpoint"
  | "pressure" => "purple_pressure"
  | k => k

/-- Closed form of the environmental entries of `env_fields`. -/
def env_entries (is_data_from_purpleair_website : Bool) (j : Payload) : Rec :=
  if is_data_from_purpleair_website then
    [("purple_temperature", valOf (j.lookup "temperature")),
     ("purple_humidity", valOf (j.lookup "humidity"))]
  else
    [("purple_temperature", valOf (j.lookup "current_temp_f")),
     ("purple_humidity", valOf (j.lookup "current_humidity")),
     ("purple_dewpoint", valOf (j.lookup "current_dewpoint_f"))]

/-- Closed form of the pressure entry of `pressure_field`. -/
def pressure_entries (j : Payload) : Rec :=
  match j.lookup "pressure" with
  | some p => [("purple_pressure", Val.num (convertStd_mbar_US p))]
  | Option.none => []

/-- Closed form of the record built before the staleness gate. -/
def base_entries (is_data_from_purpleair_website : Bool) (j : Payload)
    (fetchTime : ℤ) : Rec :=
  [("dateTime", Val.num (fetchTime : ℚ)), ("usUnits", Val.num US)] ++
    env_entries is_data_from_purpleair_website j ++ pressure_entries j

/-- Project a field of the record out of a `collect_data` result:
`Option.none` when `collect_data` raised, otherwise the dict lookup. -/
def result_field (e : Except String (Rec × List String)) (k : String) :
    Option (Option Val) :=
  match e with
  | .error _ => Option.none
  | .ok (r, _) => some (r.lookup k)

/-- Project the emitted info-log lines out of a `collect_data` result. -/
def result_logs (e : Except String (Rec × List String)) : Option (List String) :=
  match e with
  | .error _ => Option.none
  | .ok (_, logs) => some logs

/-- What `PurpleAirMonitor.new_archive_record` (lines 302-312) does with
the slot record; each skip constructor stands for exactly one `logdbg`
call and nothing else. -/
inductive ArchiveAction where
  | persist (r : Rec)   -- `self.save_data(record)`: appended to the database
  | skip_empty          -- `logdbg("Skipping record: empty")`
  | skip_stale          -- `logdbg("Skipping record: time difference %f too big")`
deriving DecidableEq

/-- `PurpleAirMonitor.new_archive_record` (lines 302-312): `slot` is
`self._thread.get_record()` — `Option.none` when nothing was ever
published (an empty dict is equally falsy) — `eventDateTime` the archival
signal's `event.record['dateTime']`, and `interval` the configured poll
interval in seconds, so the threshold `interval * 1.5` is `interval * (3/2)`.
A slot record without a numeric `dateTime` would raise, modelled as
`Except.error`. -/
def new_archive_record (slot : Option Rec) (eventDateTime : ℚ) (interval : ℚ) :
    Except String ArchiveAction :=
  match slot with
  | Option.none => .ok .skip_empty
  | some record =>
    if record = [] then .ok .skip_empty
    else
      match record.lookup "dateTime" with
      | some (Val.num t) =>
        .ok (if |t - eventDateTime| > interval * (3 / 2) then .skip_stale
             else .persist record)
      | _ => .error "dateTime"

/-- Line 352: `record['interval'] = int(weeutil.weeutil.to_int(self.config_dict['interval']) / 60)`
— the configured poll interval in seconds, divided into whole minutes
(Python `int(...)` truncates; the argument is non-negative). -/
def record_interval (interval : ℕ) : ℕ := interval / 60

/-- The `PurpleAirMonitorDataThread` state the loop body reads and writes:
`last_ts` (`None` until the first successful fetch) and the record slot
`self._record` guarded by `self._lock`. -/
structure LoopState where
  last_ts : Option ℚ
  record : Option Rec
deriving DecidableEq

/-- Outcome of running the try-block body once a fetch is due: the record
`collect_data` returned, or any raised exception (socket error, requests
error, or anything else — all three except-arms behave alike). -/
inductive FetchOutcome where
  | ok (rec : Rec)
  | failure (msg : String)
deriving DecidableEq

/-- Observable effect of one while-loop iteration. -/
structure StepResult where
  state : LoopState
  sleepSeconds : ℚ
  attempted : Bool      -- the gate at line 347 let a fetch run
  failureLogged : Bool  -- one `loginf` in an except-branch ran
deriving DecidableEq

/-- The fetch gate (line 347):
`if not last_ts or time.time() - last_ts >= interval`. `last_ts` is
either `None` or a previous positive `time.time()` reading, so Python
falsiness coincides with `None`-ness. -/
def fetch_due (last_ts : Option ℚ) (now : ℚ) (interval : ℕ) : Bool :=
  match last_ts with
  | Option.none => true
  | some t => decide ((interval : ℚ) ≤ now - t)

/-- One iteration of the while-loop of `PurpleAirMonitorDataThread.run`
(lines 344-370). If a fetch is due: on success the `interval` entry
(whole minutes) is added to the record, the record is published to the
slot under the lock, `last_ts` is set to a fresh `time.time()` reading
`successTime`, and the loop sleeps the 1-second tick; on an exception the
failure is logged, the state is left untouched, and the loop sleeps a
full poll interval (the `time.sleep(1)` is never reached). If no fetch is
due the iteration just sleeps the 1-second tick. -/
def run_step (st : LoopState) (interval : ℕ) (now successTime : ℚ)
    (outcome : FetchOutcome) : StepResult :=
  if fetch_due st.last_ts now interval then
    match outcome with
    | .ok rec =>
      { state := { last_ts := some successTime,
                   record := some (rec ++
                     [("interval", Val.num (record_interval interval))]) },
        sleepSeconds := 1, attempted := true, failureLogged := false }
    | .failure _ =>
      { state := st, sleepSeconds := (interval : ℚ), attempted := true,
        failureLogged := true }
  else
    { state := st, sleepSeconds := 1, attempted := false, failureLogged := false }

/-- The mode-specific environmental keys, so that
`optional_keys w = env_opt_keys w ++ ["pressure"]`. -/
def env_opt_keys (is_data_from_purpleair_website : Bool) : List String :=
  if is_data_from_purpleair_website then ["temperature", "humidity"]
  else ["current_temp_f", "current_humidity", "current_dewpoint_f"]

/-- A complete well-formed local-device payload (`response_date` epoch 0,
all optional and all twelve channel fields present). -/
def localPayload : Payload :=
  [("response_date", 0), ("current_temp_f", 70), ("current_humidity", 40),
   ("current_dewpoint_f", 50), ("pressure", 1010),
   ("pm1_0_cf_1", 1), ("pm1_0_cf_1_b", 3),
   ("pm1_0_atm", 1), ("pm1_0_atm_b", 3),
   ("pm2_5_cf_1", 10), ("pm2_5_cf_1_b", 12),
   ("pm2_5_atm", 10), ("pm2_5_atm_b", 12),
   ("pm10_0_cf_1", 10), ("pm10_0_cf_1_b", 12),
   ("pm10_0_atm", 10), ("pm10_0_atm_b", 12)]

/-- The record `collect_data` builds from `localPayload` once the
staleness gate has rejected the particle data. -/
def localStaleRec : Rec :=
  [("dateTime", Val.num ((100 : ℤ) : ℚ)), ("usUnits", Val.num US),
   ("purple_temperature", Val.num 70), ("purple_humidity", Val.num 40),
   ("purple_dewpoint", Val.num 50),
   ("purple_pressure", Val.num (convertStd_mbar_US 1010))]

/-- The record `collect_data` builds from `localPayload` when the payload
is fresh. -/
def localFreshRec : Rec :=
  localStaleRec ++
    [("pm1_0_cf_1", Val.num (reconcile 1 3)),
     ("pm1_0_atm", Val.num (reconcile 1 3)),
     ("pm2_5_cf_1", Val.num (reconcile 10 12)),
     ("pm2_5_atm", Val.num (reconcile 10 12)),
     ("pm10_0_cf_1", Val.num (reconcile 10 12)),
     ("pm10_0_atm", Val.num (reconcile 10 12))]

/-- `localPayload` with the optional `current_temp_f` field removed. -/
def localMissingTemp : Payload :=
  [("response_date", 0), ("current_humidity", 40),
   ("current_dewpoint_f", 50), ("pressure", 1010),
   ("pm1_0_cf_1", 1), ("pm1_0_cf_1_b", 3),
   ("pm1_0_atm", 1), ("pm1_0_atm_b", 3),
   ("pm2_5_cf_1", 10), ("pm2_5_cf_1_b", 12),
   ("pm2_5_atm", 10), ("pm2_5_atm_b", 12),
   ("pm10_0_cf_1", 10), ("pm10_0_cf_1_b", 12),
   ("pm10_0_atm", 10), ("pm10_0_atm_b", 12)]

/-- The record built from `localMissingTemp` (fresh): note the
`purple_temperature` entry IS present, holding `None`. -/
def localMissingTempRec : Rec :=
  [("dateTime", Val.num ((100 : ℤ) : ℚ)), ("usUnits", Val.num US),
   ("purple_temperature", Val.none), ("purple_humidity", Val.num 40),
   ("purple_dewpoint", Val.num 50),
   ("purple_pressure", Val.num (convertStd_mbar_US 1010)),
   ("pm1_0_cf_1", Val.num (reconcile 1 3)),
   ("pm1_0_atm", Val.num (reconcile 1 3)),
   ("pm2_5_cf_1", Val.num (reconcile 10 12)),
   ("pm2_5_atm", Val.num (reconcile 10 12)),
   ("pm10_0_cf_1", Val.num (reconcile 10 12)),
   ("pm10_0_atm", Val.num (reconcile 10 12))]

/-- `localPayload` with the optional `pressure` field removed. -/
def localMissingPressure : Payload :=
  [("response_date", 0), ("current_temp_f", 70), ("current_humidity", 40),
   ("current_dewpoint_f", 50),
   ("pm1_0_cf_1", 1), ("pm1_0_cf_1_b", 3),
   ("pm1_0_atm", 1), ("pm1_0_atm_b", 3),
   ("pm2_5_cf_1", 10), ("pm2_5_cf_1_b", 12),
   ("pm2_5_atm", 10), ("pm2_5_atm_b", 12),
   ("pm10_0_cf_1", 10), ("pm10_0_cf_1_b", 12),
   ("pm10_0_atm", 10), ("pm10_0_atm_b", 12)]

/-- A complete well-formed website (`sensor` object) payload. -/
def cloudPayload : Payload :=
  [("last_seen", 1000), ("temperature", 70), ("humidity", 40), ("pressure", 1010),
   ("pm1.0_cf_1_a", 10), ("pm1.0_cf_1_b", 12),
   ("pm1.0_atm_a", 10), ("pm1.0_atm_b", 12),
   ("pm2.5_cf_1_a", 10), ("pm2.5_cf_1_b", 12),
   ("pm2.5_atm_a", 10), ("pm2.5_atm_b", 12),
   ("pm10.0_cf_1_a", 10), ("pm10.0_cf_1_b", 12),
   ("pm10.0_atm_a", 10), ("pm10.0_atm_b", 12)]

/-- The record built from `cloudPayload` when fresh. -/
def cloudRec : Rec :=
  [("dateTime", Val.num ((1100 : ℤ) : ℚ)), ("usUnits", Val.num US),
   ("purple_temperature", Val.num 70), ("purple_humidity", Val.num 40),
   ("purple_pressure", Val.num (convertStd_mbar_US 1010)),
   ("pm1_0_cf_1", Val.num (reconcile 10 12)),
   ("pm1_0_atm", Val.num (reconcile 10 12)),
   ("pm2_5_cf_1", Val.num (reconcile 10 12)),
   ("pm2_5_atm", Val.num (reconcile 10 12)),
   ("pm10_0_cf_1", Val.num (reconcile 10 12)),
   ("pm10_0_atm", Val.num (reconcile 10 12))]

/-- A fresh website payload whose decoded `sensor` object is structurally
fine but lacks one channel-B field. -/
def cloudMissingChannel : Payload :=
  [("last_seen", 0), ("temperature", 70), ("humidity", 40), ("pressure", 1010),
   ("pm1.0_cf_1_a", 10)]

end PurpleAir

namespace PurpleAir

theorem optional_keys_eq (w : Bool) :
    optional_keys w = env_opt_keys w ++ ["pressure"] := by
  cases w <;> rfl

theorem get_and_update_missed_eq (j : Payload) (key : String) (missed : List String) :
    get_and_update_missed j key missed =
      (j.lookup key, if (j.lookup key).isNone then missed ++ [key] else missed) := by
  cases h : j.lookup key <;> simp [get_and_update_missed, h]

theorem env_fields_eq (w : Bool) (j : Payload) :
    env_fields w j =
      (env_entries w j, (env_opt_keys w).filter fun k => (j.lookup k).isNone) := by
  cases w
  · cases h1 : j.lookup "current_temp_f" <;>
    cases h2 : j.lookup "current_humidity" <;>
    cases h3 : j.lookup "current_dewpoint_f" <;>
      simp [env_fields, env_entries, env_opt_keys, get_and_update_missed,
        h1, h2, h3, valOf]
  · cases h1 : j.lookup "temperature" <;>
    cases h2 : j.lookup "humidity" <;>
      simp [env_fields, env_entries, env_opt_keys, get_and_update_missed,
        h1, h2, valOf]

theorem pressure_field_eq (j : Payload) (missed : List String) :
    pressure_field j missed =
      (pressure_entries j,
       missed ++ (["pressure"].filter fun k => (j.lookup k).isNone)) := by
  cases h : j.lookup "pressure" <;>
    simp [pressure_field, pressure_entries, get_and_update_missed, h]

theorem base_record_eq (w : Bool) (j : Payload) (ft : ℤ) :
    base_record w j ft =
      (base_entries w j ft,
       (optional_keys w).filter fun k => (j.lookup k).isNone) := by
  simp only [base_record, base_entries, env_fields_eq, pressure_field_eq,
    optional_keys_eq, List.filter_append]

theorem lookup_append (l₁ l₂ : Rec) (k : String) :
    (l₁ ++ l₂).lookup k =
      (match l₁.lookup k with
       | some v => some v
       | Option.none => l₂.lookup k) := by
  induction l₁ with
  | nil => simp
  | cons kv tl ih =>
    rcases kv with ⟨k', v⟩
    by_cases h : k = k'
    · subst h; simp [List.lookup_cons]
    · have hb : (k == k') = false := beq_eq_false_iff_ne.mpr h
      simp [List.lookup_cons, hb, ih]

theorem lookup_eq_none_of_not_mem (l : Rec) (k : String)
    (h : k ∉ l.map Prod.fst) : l.lookup k = Option.none := by
  induction l with
  | nil => simp
  | cons kv tl ih =>
    rcases kv with ⟨k', v⟩
    simp only [List.map_cons, List.mem_cons, not_or] at h
    have hb : (k == k') = false := beq_eq_false_iff_ne.mpr h.1
    simp [List.lookup_cons, hb, ih h.2]

theorem conc_entries_keys (w : Bool) (j : Payload) :
    ∀ (l : List String) (es : Rec),
      conc_entries w j l = .ok es → es.map Prod.fst = l := by
  intro l
  induction l with
  | nil => intro es h; simp [conc_entries] at h; simp [← h]
  | cons key rest ih =>
    intro es h
    simp only [conc_entries] at h
    cases ha : j.lookup (channel_keys w key).1 with
    | none => rw [ha] at h; cases h
    | some a =>
      rw [ha] at h
      cases hb : j.lookup (channel_keys w key).2 with
      | none => rw [hb] at h; cases h
      | some b =>
        rw [hb] at h
        cases ht : conc_entries w j rest with
        | error e => rw [ht] at h; cases h
        | ok tail =>
          rw [ht] at h
          cases h
          simp [ih tail ht]

theorem conc_entries_lookup (w : Bool) (j : Payload) :
    ∀ (l : List String) (es : Rec),
      conc_entries w j l = .ok es → ∀ k ∈ l,
        ∃ a b, j.lookup (channel_keys w k).1 = some a ∧
               j.lookup (channel_keys w k).2 = some b ∧
               es.lookup k = some (Val.num (reconcile a b)) := by
  intro l
  induction l with
  | nil => intro es _ k hk; cases hk
  | cons key rest ih =>
    intro es h k hk
    simp only [conc_entries] at h
    cases ha : j.lookup (channel_keys w key).1 with
    | none => rw [ha] at h; cases h
    | some a =>
      rw [ha] at h
      cases hb : j.lookup (channel_keys w key).2 with
      | none => rw [hb] at h; cases h
      | some b =>
        rw [hb] at h
        cases ht : conc_entries w j rest with
        | error e => rw [ht] at h; cases h
        | ok tail =>
          rw [ht] at h
          cases h
          by_cases hkey : k = key
          · subst hkey
            exact ⟨a, b, ha, hb, by simp [List.lookup_cons]⟩
          · have hmem : k ∈ rest := by
              rcases List.mem_cons.1 hk with h' | h'
              · exact absurd h' hkey
              · exact h'
            obtain ⟨a', b', ha', hb', hl⟩ := ih tail ht k hmem
            have hbq : (k == key) = false := beq_eq_false_iff_ne.mpr hkey
            exact ⟨a', b', ha', hb', by simp [List.lookup_cons, hbq, hl]⟩

theorem conc_entries_isOk (w : Bool) (j : Payload) :
    ∀ (l : List String),
      (∃ es, conc_entries w j l = .ok es) ↔
      ∀ k ∈ l, (j.lookup (channel_keys w k).1).isSome = true ∧
               (j.lookup (channel_keys w k).2).isSome = true := by
  intro l
  induction l with
  | nil => simp [conc_entries]
  | cons key rest ih =>
    constructor
    · rintro ⟨es, h⟩ k hk
      simp only [conc_entries] at h
      cases ha : j.lookup (channel_keys w key).1 with
      | none => rw [ha] at h; cases h
      | some a =>
        rw [ha] at h
        cases hb : j.lookup (channel_keys w key).2 with
        | none => rw [hb] at h; cases h
        | some b =>
          rw [hb] at h
          cases ht : conc_entries w j rest with
          | error e => rw [ht] at h; cases h
          | ok tail =>
            rcases List.mem_cons.1 hk with h' | h'
            · subst h'; exact ⟨by simp [ha], by simp [hb]⟩
            · exact (ih.1 ⟨tail, ht⟩) k h'
    · intro hall
      obtain ⟨a, ha⟩ := Option.isSome_iff_exists.1 (hall key (by simp)).1
      obtain ⟨b, hb⟩ := Option.isSome_iff_exists.1 (hall key (by simp)).2
      obtain ⟨tail, ht⟩ := ih.2 (fun k hk => hall k (List.mem_cons_of_mem _ hk))
      exact ⟨(key, Val.num (reconcile a b)) :: tail, by
        simp only [conc_entries, ha, hb, ht]⟩

/-- Master characterization of a successful `collect_data` run: the
timestamp key was present, the log lines are the aggregated missing-field
line, and the record is the base entries followed by either the
reconciled concentration entries (fresh payload) or nothing (stale). -/
theorem collect_data_ok (w : Bool) (j : Payload) (now : ℚ) (ft : ℤ)
    (r : Rec) (logs : List String)
    (hok : collect_data w j now ft = .ok (r, logs)) :
    ∃ v centries, j.lookup (ts_key w) = some v ∧
      logs = missed_logs ((optional_keys w).filter fun k => (j.lookup k).isNone) ∧
      r = base_entries w j ft ++ centries ∧
      ((now - v < 600 ∧ conc_entries w j conc_keys = .ok centries) ∨
       (600 ≤ now - v ∧ centries = [])) := by
  unfold collect_data at hok
  cases hts : j.lookup (ts_key w) with
  | none => rw [hts] at hok; cases hok
  | some v =>
    rw [hts, base_record_eq] at hok
    dsimp only at hok
    by_cases hfresh : now - v < 600
    · rw [if_pos hfresh] at hok
      cases hce : conc_entries w j conc_keys with
      | error e => rw [hce] at hok; cases hok
      | ok ces =>
        rw [hce] at hok
        cases hok
        exact ⟨v, ces, rfl, rfl, rfl, Or.inl ⟨hfresh, rfl⟩⟩
    · rw [if_neg hfresh] at hok
      cases hok
      exact ⟨v, [], rfl, rfl, by simp, Or.inr ⟨le_of_not_lt hfresh, rfl⟩⟩

theorem base_entries_lookup_dateTime (w : Bool) (j : Payload) (ft : ℤ) :
    (base_entries w j ft).lookup "dateTime" = some (Val.num (ft : ℚ)) := by
  simp [base_entries, List.lookup_cons]

theorem base_entries_lookup_usUnits (w : Bool) (j : Payload) (ft : ℤ) :
    (base_entries w j ft).lookup "usUnits" = some (Val.num US) := by
  simp [base_entries, List.lookup_cons]

theorem base_entries_lookup_conc_none (w : Bool) (j : Payload) (ft : ℤ)
    (k : String) (hk : k ∈ conc_keys) :
    (base_entries w j ft).lookup k = Option.none := by
  apply lookup_eq_none_of_not_mem
  simp only [conc_keys, List.mem_cons, List.not_mem_nil, or_false] at hk
  cases w <;> cases hp : j.lookup "pressure" <;>
    rcases hk with rfl | rfl | rfl | rfl | rfl | rfl <;>
      simp [base_entries, env_entries, pressure_entries, hp]

theorem base_entries_lookup_pressure_some (w : Bool) (j : Payload) (ft : ℤ)
    (p : ℚ) (hp : j.lookup "pressure" = some p) :
    (base_entries w j ft).lookup "purple_pressure" =
      some (Val.num (convertStd_mbar_US p)) := by
  cases w <;>
    simp [base_entries, env_entries, pressure_entries, hp, List.lookup_cons]

theorem base_entries_lookup_pressure_none (w : Bool) (j : Payload) (ft : ℤ)
    (hp : j.lookup "pressure" = Option.none) :
    (base_entries w j ft).lookup "purple_pressure" = Option.none := by
  cases w <;>
    simp [base_entries, env_entries, pressure_entries, hp, List.lookup_cons]

theorem base_entries_lookup_env (w : Bool) (j : Payload) (ft : ℤ)
    (k : String) (hk : k ∈ optional_keys w) (hkp : k ≠ "pressure")
    (hmiss : j.lookup k = Option.none) :
    (base_entries w j ft).lookup (record_key k) = some Val.none := by
  cases w <;>
    simp only [optional_keys, if_true, if_false, Bool.false_eq_true,
      List.mem_cons, List.not_mem_nil, or_false] at hk
  · rcases hk with rfl | rfl | rfl | rfl <;>
      first
      | exact absurd rfl hkp
      | simp [base_entries, env_entries, record_key, hmiss, valOf,
          List.lookup_cons]
  · rcases hk with rfl | rfl | rfl <;>
      first
      | exact absurd rfl hkp
      | simp [base_entries, env_entries, record_key, hmiss, valOf,
          List.lookup_cons]

/-- `conc_entries` never stores a `purple_pressure` entry: its keys are
exactly `conc_keys`. -/
theorem conc_lookup_pp_none (w : Bool) (j : Payload) (ces : Rec)
    (hce : conc_entries w j conc_keys = .ok ces) :
    ces.lookup "purple_pressure" = Option.none := by
  apply lookup_eq_none_of_not_mem
  rw [conc_entries_keys w j conc_keys ces hce]
  decide

/-- Concrete evaluation: `collect_data` on the complete local payload at
`now = 601` (stale by one second). -/
theorem collect_data_local_stale :
    collect_data false localPayload 601 100 = .ok (localStaleRec, []) := by
  unfold collect_data
  rw [show List.lookup (ts_key false) localPayload = some (0 : ℚ) from by decide,
      base_record_eq]
  dsimp only
  rw [if_neg (by norm_num : ¬((601 : ℚ) - (0 : ℚ) < 600))]
  rfl

/-- Concrete evaluation: `collect_data` on the complete local payload at
`now = 100` (fresh). -/
theorem collect_data_local_fresh :
    collect_data false localPayload 100 100 = .ok (localFreshRec, []) := by
  unfold collect_data
  rw [show List.lookup (ts_key false) localPayload = some (0 : ℚ) from by decide,
      base_record_eq]
  dsimp only
  rw [if_pos (by norm_num : ((100 : ℚ) - (0 : ℚ) < 600))]
  rfl

/-- Concrete evaluation: `collect_data` on the local payload missing
`current_temp_f`, fresh. -/
theorem collect_data_local_missing_temp :
    collect_data false localMissingTemp 100 100 =
      .ok (localMissingTempRec,
           ["sensor didn't report field(s): current_temp_f"]) := by
  unfold collect_data
  rw [show List.lookup (ts_key false) localMissingTemp = some (0 : ℚ) from by decide,
      base_record_eq]
  dsimp only
  rw [if_pos (by norm_num : ((100 : ℚ) - (0 : ℚ) < 600))]
  rfl

/-- Concrete evaluation: `collect_data` on the complete website payload,
fresh. -/
theorem collect_data_cloud_fresh :
    collect_data true cloudPayload 1100 1100 = .ok (cloudRec, []) := by
  unfold collect_data
  rw [show List.lookup (ts_key true) cloudPayload = some (1000 : ℚ) from by decide,
      base_record_eq]
  dsimp only
  rw [if_pos (by norm_num : ((1100 : ℚ) - (1000 : ℚ) < 600))]
  rfl

/-- C1: for channel readings `valA, valB ≥ 0`, the reconciled value stored
for a concentration field is the arithmetic mean `(valA + valB) / 2` when
both channels are zero or both are non-zero (so `reconcile 0 0 = 0`), and
the non-zero channel's value — equivalently `max valA valB` — when exactly
one channel is zero. -/
theorem C1_reconcile_mean_or_max (a b : ℚ) (ha : 0 ≤ a) (hb : 0 ≤ b) :
    reconcile a b =
      (if (a = 0 ∧ b ≠ 0) ∨ (b = 0 ∧ a ≠ 0) then max a b else (a + b) / 2) ∧
    reconcile 0 0 = 0 := by
  constructor
  · by_cases haz : a = 0 <;> by_cases hbz : b = 0
    · subst haz; subst hbz; simp [reconcile]
    · subst haz
      unfold reconcile
      rw [if_pos ⟨rfl, hbz⟩, if_pos (Or.inl ⟨rfl, hbz⟩)]
      exact (max_eq_right hb).symm
    · subst hbz
      unfold reconcile
      rw [if_neg (fun h => h.2 rfl), if_pos ⟨rfl, haz⟩, if_pos (Or.inr ⟨rfl, haz⟩)]
      exact (max_eq_left ha).symm
    · unfold reconcile
      rw [if_neg (fun h => haz h.1), if_neg (fun h => hbz h.1),
        if_neg (fun h => h.elim (fun h' => haz h'.1) (fun h' => hbz h'.1))]
  · norm_num [reconcile]

/-- Witness for C1 at the concrete channel pair `(0, 3)`. -/
theorem C1_witness :
    (reconcile 0 3 =
      (if ((0:ℚ) = 0 ∧ (3:ℚ) ≠ 0) ∨ ((3:ℚ) = 0 ∧ (0:ℚ) ≠ 0) then max 0 3
       else (0 + 3) / 2) ∧
    reconcile 0 0 = 0) :=
  C1_reconcile_mean_or_max 0 3 le_rfl (by norm_num)

/-- C5 counterexample: with the configured poll interval 300 seconds, the
published record's `interval` entry is 5 (whole minutes), not 300. -/
theorem C5_counterexample :
    (run_step ⟨Option.none, Option.none⟩ 300 0 0 (.ok [])).state.record =
      some [("interval", Val.num 5)] ∧
    (run_step ⟨Option.none, Option.none⟩ 300 0 0 (.ok [])).state.record ≠
      some [("interval", Val.num 300)] := by
  constructor
  · with_unfolding_all decide
  · with_unfolding_all decide

/-- C5 amended: the record published after a successful fetch carries an
`interval` entry equal to the configured poll interval floor-divided into
whole minutes, `int(interval / 60)`; with 300 seconds that is 5. -/
theorem C5_interval_minutes (st : LoopState) (interval : ℕ) (now ts : ℚ)
    (rec : Rec) (h : fetch_due st.last_ts now interval = true) :
    (run_step st interval now ts (.ok rec)).state.record =
      some (rec ++ [("interval", Val.num (record_interval interval))]) ∧
    record_interval 300 = 5 := by
  constructor
  · simp [run_step, h]
  · rfl

/-- Witness for C5 on the never-fetched state with interval 300. -/
theorem C5_witness :
    (run_step ⟨Option.none, Option.none⟩ 300 100 100 (.ok [])).state.record =
      some ([] ++ [("interval", Val.num (record_interval 300))]) ∧
    record_interval 300 = 5 :=
  C5_interval_minutes ⟨Option.none, Option.none⟩ 300 100 100 [] rfl

/-- C8: when a due fetch cycle fails with any exception, the loop logs the
failure, leaves the state (`last_ts` and the published record) untouched,
and sleeps a full poll interval instead of the 1-second tick; and a fetch
is attempted exactly when no fetch ever succeeded or the elapsed time
since the last success is at least the configured interval. -/
theorem C8_failure_backoff (st : LoopState) (interval : ℕ) (now ts : ℚ)
    (msg : String) :
    (fetch_due st.last_ts now interval = true →
       run_step st interval now ts (.failure msg) =
         ⟨st, (interval : ℚ), true, true⟩) ∧
    (∀ outcome, (run_step st interval now ts outcome).attempted =
       fetch_due st.last_ts now interval) ∧
    (fetch_due st.last_ts now interval = true ↔
       st.last_ts = Option.none ∨
       ∃ t, st.last_ts = some t ∧ (interval : ℚ) ≤ now - t) := by
  refine ⟨?_, ?_, ?_⟩
  · intro h
    simp [run_step, h]
  · intro oc
    by_cases h : fetch_due st.last_ts now interval <;> cases oc <;>
      simp [run_step, h]
  · cases hlt : st.last_ts with
    | none => simp [fetch_due]
    | some t =>
      simp only [fetch_due, decide_eq_true_eq]
      constructor
      · intro h
        exact Or.inr ⟨t, rfl, h⟩
      · rintro (h | ⟨t', ht', h⟩)
        · cases h
        · injection ht' with ht''; rwa [ht'']

/-- Witness for C8: a failing fetch on the never-fetched state with
interval 300. -/
theorem C8_witness :
    run_step ⟨Option.none, Option.none⟩ 300 0 0 (.failure "socket error") =
      ⟨⟨Option.none, Option.none⟩, ((300 : ℕ) : ℚ), true, true⟩ :=
  (C8_failure_backoff ⟨Option.none, Option.none⟩ 300 0 0 "socket error").1 rfl

/-- C3: the archive handler persists exactly when a record was published
and `|record.dateTime - signal.dateTime| ≤ 1.5 × interval`; every other
outcome is a skip carrying one debug log. With interval 300 and a slot
record at `T`, a signal at `T + 449` persists and one at `T + 451` is
skipped. -/
theorem C3_archive_gate :
    (∀ (slot : Option Rec) (e i : ℚ),
       (∃ r, new_archive_record slot e i = .ok (.persist r)) ↔
       (∃ r t, slot = some r ∧ r ≠ [] ∧ r.lookup "dateTime" = some (Val.num t) ∧
               |t - e| ≤ i * (3 / 2))) ∧
    (∀ T : ℚ, new_archive_record (some [("dateTime", Val.num T)]) (T + 449) 300 =
       .ok (.persist [("dateTime", Val.num T)])) ∧
    (∀ T : ℚ, new_archive_record (some [("dateTime", Val.num T)]) (T + 451) 300 =
       .ok .skip_stale) ∧
    new_archive_record Option.none 0 300 = .ok .skip_empty := by
  refine ⟨?_, ?_, ?_, rfl⟩
  · intro slot e i
    cases slot with
    | none => simp [new_archive_record]
    | some record =>
      by_cases hre : record = []
      · subst hre
        simp [new_archive_record]
      · unfold new_archive_record
        dsimp only
        rw [if_neg hre]
        cases hdt : record.lookup "dateTime" with
        | none =>
          constructor
          · rintro ⟨r, hr⟩; cases hr
          · rintro ⟨r, t, hr, -, hl, -⟩
            injection hr with hr; subst hr
            rw [hdt] at hl; cases hl
        | some val =>
          cases val with
          | num t =>
            dsimp only
            by_cases hδ : |t - e| > i * (3 / 2)
            · rw [if_pos hδ]
              constructor
              · rintro ⟨r, hr⟩; cases hr
              · rintro ⟨r, t', hr, -, hl, hle⟩
                injection hr with hr; subst hr
                rw [hdt] at hl
                injection hl with hl
                injection hl with hl; subst hl
                exact absurd hle (not_le.mpr hδ)
            · rw [if_neg hδ]
              exact ⟨fun _ => ⟨record, t, rfl, hre, hdt, not_lt.1 hδ⟩,
                     fun _ => ⟨record, rfl⟩⟩
          | none =>
            constructor
            · rintro ⟨r, hr⟩; cases hr
            · rintro ⟨r, t, hr, -, hl, -⟩
              injection hr with hr; subst hr
              rw [hdt] at hl
              injection hl with hl
              cases hl
  · intro T
    have h1 : T - (T + 449) = -449 := by ring
    have h2 : ¬ (|(-449 : ℚ)| > 300 * (3 / 2)) := by
      rw [abs_of_nonpos (by norm_num : (-449 : ℚ) ≤ 0)]
      norm_num
    unfold new_archive_record
    dsimp only
    rw [if_neg (by simp : ¬([("dateTime", Val.num T)] : Rec) = [])]
    simp only [List.lookup_cons]
    rw [show (("dateTime" == "dateTime") = true) from rfl]
    dsimp only
    rw [h1, if_neg h2]
  · intro T
    have h1 : T - (T + 451) = -451 := by ring
    have h2 : |(-451 : ℚ)| > 300 * (3 / 2) := by
      rw [abs_of_nonpos (by norm_num : (-451 : ℚ) ≤ 0)]
      norm_num
    unfold new_archive_record
    dsimp only
    rw [if_neg (by simp : ¬([("dateTime", Val.num T)] : Rec) = [])]
    simp only [List.lookup_cons]
    rw [show (("dateTime" == "dateTime") = true) from rfl]
    dsimp only
    rw [h1, if_pos h2]

/-- C2 counterexample: a complete well-formed LocalDevice payload (all
twelve channel fields present) whose `response_date` is 601 seconds old
yields a record with no `pm2_5_cf_1` entry — the staleness gate fires in
LocalDevice mode too. -/
theorem C2_counterexample :
    (localPayload.lookup "response_date" = some 0 ∧
     (localPayload.lookup "pm2_5_cf_1").isSome = true ∧
     (localPayload.lookup "pm2_5_cf_1_b").isSome = true) ∧
    result_field (collect_data false localPayload 601 100) "pm2_5_cf_1" =
      some Option.none := by
  constructor
  · exact ⟨by decide, by decide, by decide⟩
  · with_unfolding_all decide

/-- C2 amended: the 10-minute staleness gate is applied in BOTH modes
(`last_seen` for CloudAPI, `response_date` for LocalDevice): on a
successful run, an age of 600 seconds or more leaves every concentration
field absent, and a fresh payload stores the reconciled channel pair for
each of the six fields. -/
theorem C2_staleness_gate_both_modes (w : Bool) (j : Payload) (now : ℚ)
    (ft : ℤ) (r : Rec) (logs : List String) (v : ℚ) (k : String)
    (hok : collect_data w j now ft = .ok (r, logs))
    (hts : j.lookup (ts_key w) = some v) (hk : k ∈ conc_keys) :
    (600 ≤ now - v → r.lookup k = Option.none) ∧
    (now - v < 600 → ∃ a b,
        j.lookup (channel_keys w k).1 = some a ∧
        j.lookup (channel_keys w k).2 = some b ∧
        r.lookup k = some (Val.num (reconcile a b))) := by
  obtain ⟨v', ces, hts', hlogs, hr, hcase⟩ := collect_data_ok w j now ft r logs hok
  rw [hts] at hts'
  injection hts' with hv
  subst hv
  rcases hcase with ⟨hfresh, hce⟩ | ⟨hstale, hnil⟩
  · refine ⟨fun h600 => absurd hfresh (not_lt.mpr h600), fun _ => ?_⟩
    obtain ⟨a, b, ha, hb, hl⟩ := conc_entries_lookup w j conc_keys ces hce k hk
    refine ⟨a, b, ha, hb, ?_⟩
    rw [hr, lookup_append, base_entries_lookup_conc_none w j ft k hk]
    exact hl
  · refine ⟨fun _ => ?_, fun hfresh => absurd hfresh (not_lt.mpr hstale)⟩
    rw [hr, hnil, List.append_nil]
    exact base_entries_lookup_conc_none w j ft k hk

/-- Witness for C2 on the stale local payload. -/
theorem C2_witness : localStaleRec.lookup "pm2_5_cf_1" = Option.none :=
  (C2_staleness_gate_both_modes false localPayload 601 100 localStaleRec []
      0 "pm2_5_cf_1" collect_data_local_stale (by decide) (by decide)).1
    (by norm_num)

/-- C4 counterexample: a fresh website payload whose decoded `sensor`
object is structurally fine (with `last_seen`, temperature, humidity and
pressure all present) still makes `collect_data` raise a `KeyError`,
because the optional channel field `pm1.0_cf_1_b` is absent. -/
theorem C4_counterexample :
    collect_data true cloudMissingChannel 100 100 = .error "pm1.0_cf_1_b" := by
  with_unfolding_all decide

/-- C4 amended: `collect_data` never fails because temperature, humidity,
dewpoint or pressure is missing; it returns a record exactly when the
payload's timestamp key is present and either the payload is stale
(age ≥ 600 s) or all twelve per-channel concentration keys are present.
A missing channel key on a fresh payload raises. -/
theorem C4_success_iff (w : Bool) (j : Payload) (now : ℚ) (ft : ℤ) :
    (∃ res, collect_data w j now ft = .ok res) ↔
    (∃ v, j.lookup (ts_key w) = some v ∧
       (600 ≤ now - v ∨
        ∀ k ∈ conc_keys, (j.lookup (channel_keys w k).1).isSome = true ∧
                         (j.lookup (channel_keys w k).2).isSome = true)) := by
  unfold collect_data
  cases hts : j.lookup (ts_key w) with
  | none =>
    constructor
    · rintro ⟨res, hres⟩; cases hres
    · rintro ⟨v, hv, -⟩; cases hv
  | some v =>
    rw [base_record_eq]
    dsimp only
    by_cases hfresh : now - v < 600
    · rw [if_pos hfresh]
      constructor
      · rintro ⟨res, hres⟩
        refine ⟨v, rfl, Or.inr ?_⟩
        cases hce : conc_entries w j conc_keys with
        | error e => rw [hce] at hres; cases hres
        | ok ces => exact (conc_entries_isOk w j conc_keys).1 ⟨ces, hce⟩
      · rintro ⟨v', hv', hside⟩
        injection hv' with hv'
        subst hv'
        rcases hside with h600 | hch
        · exact absurd hfresh (not_lt.mpr h600)
        · obtain ⟨ces, hce⟩ := (conc_entries_isOk w j conc_keys).2 hch
          rw [hce]
          exact ⟨_, rfl⟩
    · rw [if_neg hfresh]
      constructor
      · intro _
        exact ⟨v, rfl, Or.inl (le_of_not_lt hfresh)⟩
      · intro _
        exact ⟨_, rfl⟩

/-- C6 counterexample: with `current_temp_f` missing from an otherwise
complete fresh local payload, the record does contain an entry for the
missing field — `purple_temperature` is present and holds `None`, so the
field is not "left absent from the returned record". -/
theorem C6_counterexample :
    localMissingTemp.lookup "current_temp_f" = Option.none ∧
    result_field (collect_data false localMissingTemp 100 100)
        "purple_temperature" = some (some Val.none) := by
  constructor
  · decide
  · with_unfolding_all decide

/-- C6 amended: the names of the absent optional fields are logged exactly
once per fetch as a single aggregated line (none when nothing is
missing); but a missing temperature/humidity/dewpoint field is stored in
the record as an entry holding `None` — only a missing pressure leaves
the record without an entry. -/
theorem C6_missing_fields (w : Bool) (j : Payload) (now : ℚ) (ft : ℤ)
    (r : Rec) (logs : List String)
    (hok : collect_data w j now ft = .ok (r, logs)) :
    logs = missed_logs ((optional_keys w).filter fun k => (j.lookup k).isNone) ∧
    (((optional_keys w).filter fun k => (j.lookup k).isNone) = [] →
       logs = []) ∧
    (((optional_keys w).filter fun k => (j.lookup k).isNone) ≠ [] →
       logs.length = 1) ∧
    (∀ k, k ∈ optional_keys w → k ≠ "pressure" → j.lookup k = Option.none →
       r.lookup (record_key k) = some Val.none) ∧
    (j.lookup "pressure" = Option.none →
       r.lookup "purple_pressure" = Option.none) := by
  obtain ⟨v, ces, hts, hlogs, hr, hcase⟩ := collect_data_ok w j now ft r logs hok
  refine ⟨hlogs, ?_, ?_, ?_, ?_⟩
  · intro hnil
    rw [hlogs, hnil]
    rfl
  · intro hne
    rw [hlogs]
    simp [missed_logs, hne]
  · intro k hk hkp hmiss
    rw [hr, lookup_append, base_entries_lookup_env w j ft k hk hkp hmiss]
  · intro hp
    have hbase := base_entries_lookup_pressure_none w j ft hp
    rcases hcase with ⟨-, hce⟩ | ⟨-, hnil⟩
    · rw [hr, lookup_append, hbase]
      exact conc_lookup_pp_none w j ces hce
    · rw [hr, hnil, List.append_nil]
      exact hbase

/-- Witness for C6 on the local payload missing `current_temp_f`. -/
theorem C6_witness :
    localMissingTempRec.lookup (record_key "current_temp_f") =
      some Val.none :=
  (C6_missing_fields false localMissingTemp 100 100 localMissingTempRec
      ["sensor didn't report field(s): current_temp_f"]
      collect_data_local_missing_temp).2.2.2.1
    "current_temp_f" (by decide) (by decide) (by decide)

/-- C7 counterexample: when only the pressure field is absent from a
fresh local payload, the absence is NOT silent — the fetch emits the
aggregated missing-field info line naming `pressure`. -/
theorem C7_counterexample :
    localMissingPressure.lookup "pressure" = Option.none ∧
    result_logs (collect_data false localMissingPressure 100 100) =
      some ["sensor didn't report field(s): pressure"] := by
  constructor
  · decide
  · with_unfolding_all decide

/-- C7 amended: a present pressure is converted from millibar to the US
pressure unit and stored; an absent pressure leaves the record without a
pressure entry, but the absence is logged — `pressure` joins the
aggregated missing-field info line, so the fetch's log output is
non-empty. -/
theorem C7_pressure_conversion (w : Bool) (j : Payload) (now : ℚ) (ft : ℤ)
    (r : Rec) (logs : List String)
    (hok : collect_data w j now ft = .ok (r, logs)) :
    (∀ p, j.lookup "pressure" = some p →
       r.lookup "purple_pressure" = some (Val.num (convertStd_mbar_US p))) ∧
    (j.lookup "pressure" = Option.none →
       r.lookup "purple_pressure" = Option.none ∧
       "pressure" ∈ ((optional_keys w).filter fun k => (j.lookup k).isNone) ∧
       logs ≠ []) := by
  obtain ⟨v, ces, hts, hlogs, hr, hcase⟩ := collect_data_ok w j now ft r logs hok
  constructor
  · intro p hp
    rw [hr, lookup_append, base_entries_lookup_pressure_some w j ft p hp]
  · intro hp
    have hmem : "pressure" ∈
        ((optional_keys w).filter fun k => (j.lookup k).isNone) := by
      rw [List.mem_filter]
      refine ⟨?_, by rw [hp]; rfl⟩
      cases w <;> simp [optional_keys]
    refine ⟨?_, hmem, ?_⟩
    · have hbase := base_entries_lookup_pressure_none w j ft hp
      rcases hcase with ⟨-, hce⟩ | ⟨-, hnil⟩
      · rw [hr, lookup_append, hbase]
        exact conc_lookup_pp_none w j ces hce
      · rw [hr, hnil, List.append_nil]
        exact hbase
    · rw [hlogs]
      have hne : ((optional_keys w).filter fun k => (j.lookup k).isNone) ≠ [] := by
        intro h0
        rw [h0] at hmem
        cases hmem
      simp [missed_logs, hne]

/-- Witness for C7 on the complete local payload (pressure present). -/
theorem C7_witness :
    localFreshRec.lookup "purple_pressure" =
      some (Val.num (convertStd_mbar_US 1010)) :=
  (C7_pressure_conversion false localPayload 100 100 localFreshRec []
      collect_data_local_fresh).1 1010 (by decide)

/-- C10: every record produced by `collect_data`, in both modes, starts
with `dateTime` set to the fetch time and `usUnits` set to the US
unit-system tag, and any present pressure is stored converted from
millibar to the US pressure unit. -/
theorem C10_us_units (w : Bool) (j : Payload) (now : ℚ) (ft : ℤ)
    (r : Rec) (logs : List String)
    (hok : collect_data w j now ft = .ok (r, logs)) :
    r.lookup "dateTime" = some (Val.num (ft : ℚ)) ∧
    r.lookup "usUnits" = some (Val.num US) ∧
    (∀ p, j.lookup "pressure" = some p →
       r.lookup "purple_pressure" = some (Val.num (convertStd_mbar_US p))) := by
  obtain ⟨v, ces, hts, hlogs, hr, hcase⟩ := collect_data_ok w j now ft r logs hok
  refine ⟨?_, ?_, fun p hp => ?_⟩
  · rw [hr, lookup_append, base_entries_lookup_dateTime]
  · rw [hr, lookup_append, base_entries_lookup_usUnits]
  · rw [hr, lookup_append, base_entries_lookup_pressure_some w j ft p hp]

/-- Witness for C10 on the complete website payload. -/
theorem C10_witness :
    cloudRec.lookup "dateTime" = some (Val.num ((1100 : ℤ) : ℚ)) :=
  (C10_us_units true cloudPayload 1100 1100 cloudRec []
      collect_data_cloud_fresh).1

end PurpleAir
